import Mathlib

/-!
Shallow embedding of the `online_store` Django app of the SwiftBasket
eCommerce repository: the data model (`models.py`) and the view functions
the verified claims concern (`views/cart_views.py`, `views/order_views.py`,
`views/review_views.py`, `views/password_reset_views.py`,
`views/store_views.py`, `views/product_views.py`, `api/views.py`).

Conventions used throughout:
* UUID primary keys (`Store.store_id`, `Product.product_id`) are opaque
  `String`s; auto-increment integer primary keys are `Nat`s drawn from a
  `nextId` counter carried on the database state.
* `DecimalField` money amounts are integers in cents.
* A request's `quantity` parameter is embedded as the outcome of Python's
  `int(...)` conversion: `some n` when the conversion succeeds (a missing
  field falls back to the view's default of `1`), `none` when `int`
  raises `ValueError`.
* A view function that falls off its end returns `Option.none` for its
  response (Django then raises "the view didn't return an HttpResponse",
  surfaced to the caller as an HTTP 500); an explicit response is `some r`.
* Outbound side effects that do not touch the database (template
  rendering, the fire-and-forget Tweet client) are not part of the state;
  the invoice email of `checkout` is modelled by a boolean `emailOk`
  telling whether `EmailMessage.send(fail_silently=False)` succeeds or
  raises.
-/

namespace OnlineStore

/-- `models.Store`: `store_id` UUID primary key, `owner` a OneToOneField
to `User` (hence unique per owner at the database level), name and
description. -/
structure Store where
  store_id : String
  owner : Nat
  store_name : String
  description : String
deriving DecidableEq, Repr

/-- `models.Product`: nullable FK `store`, UUID primary key, name,
price (`DecimalField`, in cents here) and description.  The `image`
field never influences the verified behaviour and is omitted. -/
structure Product where
  product_id : String
  store : Option String
  product_name : String
  price : Int
  description : String
deriving DecidableEq, Repr

/-- `models.Cart`: OneToOne with `User`. -/
structure Cart where
  id : Nat
  user : Nat
deriving DecidableEq, Repr

/-- `models.CartItem`: FK `cart`, FK `items` to `Product`,
`quantity` a PositiveIntegerField. -/
structure CartItem where
  id : Nat
  cart : Nat
  items : String
  quantity : Int
deriving DecidableEq, Repr

/-- `models.Order`: FK `user`, `total_price` decimal. -/
structure Order where
  id : Nat
  user : Nat
  total_price : Int
deriving DecidableEq, Repr

/-- `models.OrderItem`: FK `order`; `product` is a `CharField` holding
the product NAME (a snapshot, not a live product reference); `price` is
the line price for the ordered quantity. -/
structure OrderItem where
  id : Nat
  order : Nat
  product : String
  quantity : Int
  price : Int
deriving DecidableEq, Repr

/-- `models.Review`: FK `user`, nullable FK `product`, rating, comment,
`is_verified` flag.  (`date_created_at` plays no role in the claims.) -/
structure Review where
  id : Nat
  user : Nat
  product : Option String
  rating : Int
  comment : String
  is_verified : Bool
deriving DecidableEq, Repr

/-- The relational store of the app: one list per table plus the
auto-increment counter for integer primary keys. -/
structure DB where
  stores : List Store
  products : List Product
  carts : List Cart
  cartItems : List CartItem
  orders : List Order
  orderItems : List OrderItem
  reviews : List Review
  nextId : Nat
deriving DecidableEq, Repr

/-- A logged-in web user: integer pk and the set of named permissions
`user.has_perm` consults. -/
structure WebUser where
  id : Nat
  perms : List String
deriving DecidableEq, Repr

/- ----------------------------------------------------------------
Session (anonymous) cart: `request.session["cart"]` is a JSON map from
product-id strings to integer quantities, embedded as an association
list. -/

/-- Quantity of `item` in the session cart (`cart.get(item, 0)`). -/
def sessionGet (cart : List (String × Int)) (item : String) : Int :=
  match cart.find? (fun kv => kv.1 == item) with
  | some kv => kv.2
  | none => 0

/-- `cart[item] += quantity` when the key exists, otherwise
`cart[item] = quantity`. -/
def sessionInsert (cart : List (String × Int)) (item : String)
    (quantity : Int) : List (String × Int) :=
  if cart.any (fun kv => kv.1 == item) then
    cart.map (fun kv => if kv.1 == item then (kv.1, kv.2 + quantity) else kv)
  else
    cart ++ [(item, quantity)]

/-- Responses of the anonymous branch of `cart_views.add_item_to_cart`. -/
inductive AnonResp where
  | badRequest (msg : String)
  | redirectView
deriving DecidableEq, Repr

/-- `cart_views.add_item_to_cart`, anonymous branch (the authenticated
branch delegates to `add_item_db_cart`, embedded separately below).
`qtyRaw` is the outcome of `int(request.POST.get("quantity", 1))`;
`item` is `request.POST.get("item")`, where Python's `if not item`
also rejects the empty string.  Returns the session cart after the
request together with the response. -/
def add_item_to_cart (session : List (String × Int)) (qtyRaw : Option Int)
    (item : Option String) : List (String × Int) × AnonResp :=
  match qtyRaw with
  | none => (session, .badRequest "Quantity must be at least 1")
  | some quantity =>
    if quantity < 1 then (session, .badRequest "Invalid quantity")
    else
      match item with
      | none => (session, .badRequest "No item specified")
      | some s =>
        if s == "" then (session, .badRequest "No item specified")
        else (sessionInsert session s quantity, .redirectView)

/- ----------------------------------------------------------------
Persisted (database) cart. -/

/-- `Cart.objects.get_or_create(user=user)`: the existing cart, or a
fresh row with the next id. -/
def getOrCreateCart (db : DB) (user : Nat) : Cart × DB :=
  match db.carts.find? (fun c => c.user == user) with
  | some c => (c, db)
  | none =>
    let c : Cart := ⟨db.nextId, user⟩
    (c, { db with carts := db.carts ++ [c], nextId := db.nextId + 1 })

/-- `CartItem.objects.get_or_create(cart=cart, items=product,
defaults=quantity)` followed, when the row already existed, by
`cart_item.quantity += quantity; cart_item.save()`.  This exact shape
appears in both `add_item_db_cart` and `merge_cart`. -/
def upsertCartItem (db : DB) (cartId : Nat) (pid : String)
    (quantity : Int) : DB :=
  match db.cartItems.find? (fun ci => ci.cart == cartId && ci.items == pid) with
  | some ci =>
    { db with cartItems := db.cartItems.map (fun x =>
        if x.id == ci.id then { x with quantity := x.quantity + quantity }
        else x) }
  | none =>
    { db with
      cartItems := db.cartItems ++ [⟨db.nextId, cartId, pid, quantity⟩],
      nextId := db.nextId + 1 }

/-- Quantity coercion of `cart_views.add_item_db_cart`: `int(...)` with
any `ValueError` and any value below 1 silently replaced by 1. -/
def coerceQty (qtyRaw : Option Int) : Int :=
  match qtyRaw with
  | none => 1
  | some n => if n < 1 then 1 else n

/-- `cart_views.add_item_db_cart`: coerce the quantity, 404 unless the
product exists (`get_object_or_404`, embedded as `none`), get-or-create
the user's cart, then get-or-create / increment the cart item.  `some`
carries the database after the successful add. -/
def add_item_db_cart (db : DB) (user : Nat) (productId : Option String)
    (qtyRaw : Option Int) : Option DB :=
  let quantity := coerceQty qtyRaw
  match db.products.find? (fun p => some p.product_id == productId) with
  | none => none
  | some product =>
    let cd := getOrCreateCart db user
    some (upsertCartItem cd.2 cd.1.id product.product_id quantity)

/-- `cart_views.merge_cart` (connected to the `user_logged_in` signal):
no-op unless the user is in the `Buyers` group; otherwise get-or-create
the cart, fold every `(product_id, quantity)` pair of the session cart
into it — skipping ids with no matching `Product`
(`Product.DoesNotExist` → `continue`) — and finally set
`request.session["cart"] = {}`.  Returns the database and the session
cart after the merge.  (The `is_authenticated` test of the source is
always true when the login signal fires.) -/
def merge_cart (db : DB) (user : Nat) (isBuyer : Bool)
    (session : List (String × Int)) : DB × List (String × Int) :=
  if !isBuyer then (db, session)
  else
    let cd := getOrCreateCart db user
    let db2 := session.foldl (fun acc kv =>
      match acc.products.find? (fun p => p.product_id == kv.1) with
      | none => acc
      | some product => upsertCartItem acc cd.1.id product.product_id kv.2) cd.2
    (db2, [])

/- ----------------------------------------------------------------
Checkout. -/

/-- `item.items.price`: the FK `CartItem.items` is non-nullable, so in
any state the app produces the lookup succeeds; a dangling id prices
at 0. -/
def unitPrice (db : DB) (pid : String) : Int :=
  match db.products.find? (fun p => p.product_id == pid) with
  | some p => p.price
  | none => 0

/-- `item.items.product_name`, under the same convention. -/
def productName (db : DB) (pid : String) : String :=
  match db.products.find? (fun p => p.product_id == pid) with
  | some p => p.product_name
  | none => ""

/-- Outcomes of `order_views.checkout`.  `emailError` is the state at
the moment `EmailMessage.send(fail_silently=False)` raises: the
exception is not caught, so the request aborts with the order and its
order items already persisted and the cart items not yet deleted. -/
inductive CheckoutResult where
  | loginRedirect
  | cartNotFound
  | emptyCartRedirect
  | page
  | emailError (db : DB)
  | success (db : DB)
deriving DecidableEq, Repr

/-- `order_views.checkout`: redirect anonymous users to login; 404
without a cart; on POST with a non-empty cart create one `Order` with
`total_price = Σ item.items.price * item.quantity`, one `OrderItem` per
cart line holding the product-name snapshot and the line price
`item.items.price * item.quantity`, send the invoice email, and only
then delete the cart's items (`cart_items.delete()`). -/
def checkout (db : DB) (user : Nat) (authenticated : Bool)
    (isPost : Bool) (emailOk : Bool) : CheckoutResult :=
  if !authenticated then .loginRedirect
  else
    match db.carts.find? (fun c => c.user == user) with
    | none => .cartNotFound
    | some cart =>
      let items := db.cartItems.filter (fun ci => ci.cart == cart.id)
      let total_price :=
        (items.map (fun ci => unitPrice db ci.items * ci.quantity)).sum
      if isPost then
        if items.isEmpty then .emptyCartRedirect
        else
          let order : Order := ⟨db.nextId, user, total_price⟩
          let db1 := { db with
            orders := db.orders ++ [order], nextId := db.nextId + 1 }
          let db2 := items.foldl (fun acc ci =>
            { acc with
              orderItems := acc.orderItems ++
                [⟨acc.nextId, order.id, productName db ci.items, ci.quantity,
                  unitPrice db ci.items * ci.quantity⟩],
              nextId := acc.nextId + 1 }) db1
          if emailOk then
            .success { db2 with
              cartItems := db2.cartItems.filter (fun ci => !(ci.cart == cart.id)) }
          else .emailError db2
      else .page

/-- The database a finished (or aborted-in-flight) checkout leaves
behind, when one is reached. -/
def checkoutDb : CheckoutResult → Option DB
  | .success db => some db
  | .emailError db => some db
  | _ => none

/-- `product_views.update_product`'s successful save path restricted to
a price edit: `form.save()` writes the `products` row and touches no
other table (in particular `OrderItem` rows, which hold no product
reference, are untouched). -/
def setProductPrice (db : DB) (pid : String) (newPrice : Int) : DB :=
  { db with products := db.products.map (fun p =>
      if p.product_id == pid then { p with price := newPrice } else p) }

/- ----------------------------------------------------------------
Reviews. -/

/-- Outcomes of `review_views.create_review`.  `duplicateRejected`
carries the `messages.error("You have already submitted a review.")`
redirect. -/
inductive ReviewResp where
  | notFound
  | duplicateRejected
  | created
  | renderForm
deriving DecidableEq, Repr

/-- `OrderItem.objects.filter(order__user=user, product=product)
.exists()`: `OrderItem.product` is a `CharField`, so Django compares it
against `str(product)`, which `Product.__str__` defines as the product
name. -/
def has_purchased (db : DB) (user : Nat) (pname : String) : Bool :=
  db.orderItems.any (fun oi =>
    db.orders.any (fun o => o.id == oi.order && o.user == user) &&
      oi.product == pname)

/-- `review_views.create_review`: 404 unless the product exists; reject
with a message (and no new row) when a `Review` by this user for this
product already exists; otherwise compute `has_purchased` and, on POST,
create the review with `is_verified = has_purchased`. -/
def create_review (db : DB) (user : Nat) (pk : String) (isPost : Bool)
    (rating : Int) (comment : String) : DB × ReviewResp :=
  match db.products.find? (fun p => p.product_id == pk) with
  | none => (db, .notFound)
  | some product =>
    if db.reviews.any (fun r => r.user == user && r.product == some product.product_id) then
      (db, .duplicateRejected)
    else
      let hp := has_purchased db user product.product_name
      if isPost then
        ({ db with
            reviews := db.reviews ++
              [⟨db.nextId, user, some product.product_id, rating, comment, hp⟩],
            nextId := db.nextId + 1 }, .created)
      else (db, .renderForm)

/- ----------------------------------------------------------------
Password reset tokens (`views/password_reset_views.py`).  The raw token
travels in the emailed URL; the stored row holds `sha1(token)`.  The
hash is an explicit parameter `hash : String → String` of the embedded
views — exactly the role `sha1(t.encode()).hexdigest()` plays in the
source.  Timestamps are integers and `now` is a parameter. -/

/-- `models.ResetToken`: FK `user` (embedded by username, which is what
the view stores in the session), the token HASH, and the expiry
timestamp.  (`used` is never written by any view and is omitted.) -/
structure RToken where
  id : Nat
  user : String
  token : String
  expiry_date : Int
deriving DecidableEq, Repr

/-- The slice of `auth.User` the reset flow touches: username, the
stored credential, and the group names `user.groups` carries. -/
structure RUser where
  username : String
  password : String
  groups : List String
deriving DecidableEq, Repr

/-- State of the reset flow: the user and token tables plus the
session-scoped handshake `request.session["user"] / ["token"]`. -/
structure RState where
  users : List RUser
  tokens : List RToken
  sessionUser : Option String
  sessionToken : Option String
deriving DecidableEq, Repr

/-- Outcomes of `reset_user_password` (the link-validation view).
`multipleTokens` is the uncaught `MultipleObjectsReturned` that
`ResetToken.objects.get` raises when several rows share a hash. -/
inductive ValidateResult where
  | invalid (st : RState)
  | expired (st : RState)
  | okForm (st : RState)
  | multipleTokens (st : RState)
deriving DecidableEq, Repr

/-- `password_reset_views.reset_user_password`: look the row up by the
hash of the presented raw token; no row → "Invalid or expired reset
token"; a row whose `expiry_date` is in the past → delete the row and
report "This reset link has expired."; otherwise stage the username and
raw token in the session and render the reset form. -/
def reset_user_password (hash : String → String) (st : RState)
    (token : String) (now : Int) : ValidateResult :=
  match st.tokens.filter (fun t => t.token == hash token) with
  | [] => .invalid st
  | [t] =>
    if t.expiry_date < now then
      .expired { st with tokens := st.tokens.filter (fun x => !(x.id == t.id)) }
    else
      .okForm { st with sessionUser := some t.user, sessionToken := some token }
  | _ => .multipleTokens st

/-- Outcomes of `reset_password` (the consume view).  `mismatch` is the
re-rendered form with "Passwords do not match."; `userMissing` is the
uncaught `User.DoesNotExist` of `change_user_password`; `done` carries
the redirect target chosen from the user's group. -/
inductive ConsumeResult where
  | renderForm (st : RState)
  | sessionInvalid (st : RState)
  | mismatch (st : RState)
  | userMissing (st : RState)
  | done (st : RState) (target : String)
deriving DecidableEq, Repr

/-- `password_reset_views.change_user_password`:
`User.objects.get(username=...)` then `set_password`; `none` embeds the
uncaught `DoesNotExist`. -/
def change_user_password (st : RState) (username newPassword : String) :
    Option RState :=
  if st.users.any (fun u => u.username == username) then
    some { st with users := st.users.map (fun u =>
      if u.username == username then { u with password := newPassword } else u) }
  else none

/-- The group-dependent redirect at the end of a successful
`reset_password` (`Vendors` → vendor login, `Buyers` → buyer login,
otherwise home; a vanished user also falls back to home). -/
def redirectTarget (st : RState) (username : String) : String :=
  match st.users.find? (fun u => u.username == username) with
  | some u =>
    if u.groups.contains "Vendors" then "login_vendor"
    else if u.groups.contains "Buyers" then "login_buyer"
    else "home"
  | none => "home"

/-- `password_reset_views.reset_password`: on POST, require the staged
session handshake (`if not username or not token`, which also rejects
empty strings); require the two password fields to match — on mismatch
re-render with an error and change nothing; on match set the new
credential, delete every token row whose hash matches the staged raw
token, clear the handshake, and redirect by group. -/
def reset_password (hash : String → String) (st : RState) (isPost : Bool)
    (password password_conf : String) : ConsumeResult :=
  if !isPost then .renderForm st
  else
    match st.sessionUser, st.sessionToken with
    | some username, some token =>
      if username == "" || token == "" then .sessionInvalid st
      else if password == password_conf then
        match change_user_password st username password with
        | none => .userMissing st
        | some st1 =>
          let st2 := { st1 with
            tokens := st1.tokens.filter (fun t => !(t.token == hash token)),
            sessionUser := none,
            sessionToken := none }
          .done st2 (redirectTarget st2 username)
      else .mismatch st
    | _, _ => .sessionInvalid st

/- ----------------------------------------------------------------
Permission-gated Store/Product mutations (`views/store_views.py`,
`views/product_views.py`, `api/views.py`). -/

/-- The responses these views can produce.  `integrityError` is the
uncaught database `IntegrityError` raised by `store.save()` when the
`OneToOneField` owner already has a store; `storeMissing` the uncaught
`Store.DoesNotExist` of `Store.objects.get(owner=...)`. -/
inductive HResp where
  | redirect (target : String)
  | forbidden
  | badRequestJson
  | createdJson
  | formFieldError (field : String)
  | renderForm
  | notFound
  | integrityError
  | storeMissing
deriving DecidableEq, Repr

/-- `user.has_perm(perm)`. -/
def has_perm (user : WebUser) (perm : String) : Bool :=
  user.perms.contains perm

/-- Django CASCADE triggered by deleting the products with the given
ids: the products go, and with them their `CartItem` and `Review`
dependents (`OrderItem` holds no product reference and is untouched). -/
def cascadeDeleteProductIds (db : DB) (pids : List String) : DB :=
  { db with
    products := db.products.filter (fun p => !(pids.contains p.product_id)),
    cartItems := db.cartItems.filter (fun ci => !(pids.contains ci.items)),
    reviews := db.reviews.filter (fun r =>
      match r.product with
      | some pid => !(pids.contains pid)
      | none => true) }

/-- `store_views.delete_store`: with `online_store.delete_store` fetch
the store (404 if absent) and delete it, cascading to its products and
their dependents, then redirect; WITHOUT the permission the function
body ends with no return statement, so the view returns `None`. -/
def delete_store (db : DB) (user : WebUser) (pk : String) :
    DB × Option HResp :=
  if has_perm user "online_store.delete_store" then
    match db.stores.find? (fun s => s.store_id == pk) with
    | none => (db, some .notFound)
    | some s =>
      let victims := (db.products.filter (fun p => p.store == some s.store_id)).map
        (fun p => p.product_id)
      let db1 := cascadeDeleteProductIds db victims
      ({ db1 with stores := db1.stores.filter (fun x => !(x.store_id == s.store_id)) },
        some (.redirect "seller_home"))
  else (db, none)

/-- `product_views.delete_product`: same shape with
`online_store.delete_product`; without the permission the view returns
`None`. -/
def delete_product (db : DB) (user : WebUser) (pk : String) :
    DB × Option HResp :=
  if has_perm user "online_store.delete_product" then
    match db.products.find? (fun p => p.product_id == pk) with
    | none => (db, some .notFound)
    | some p => (cascadeDeleteProductIds db [p.product_id],
        some (.redirect "seller_home"))
  else (db, none)

/-- `api/views.add_store`: explicit 403 without
`online_store.add_store`; 400 when the owner already has a store
(`Store.objects.filter(owner=...).exists()`); otherwise save the
serializer with `owner=request.user` (201) or return its errors (400).
`newId` is the fresh UUID `uuid4` assigns to the row. -/
def add_store (db : DB) (user : WebUser) (serializerValid : Bool)
    (newId store_name description : String) : DB × Option HResp :=
  if !(has_perm user "online_store.add_store") then (db, some .forbidden)
  else if db.stores.any (fun s => s.owner == user.id) then
    (db, some .badRequestJson)
  else if serializerValid then
    ({ db with stores := db.stores ++ [⟨newId, user.id, store_name, description⟩] },
      some .createdJson)
  else (db, some .badRequestJson)

/-- `store_views.create_store`: with `online_store.add_store`, on a
valid POST `store.save()` — which hits the `OneToOneField` owner
uniqueness of `models.Store` and raises `IntegrityError` when the owner
already has a store — then redirects; without the permission the view
returns `None`. -/
def create_store (db : DB) (user : WebUser) (isPost formValid : Bool)
    (newId store_name description : String) : DB × Option HResp :=
  if has_perm user "online_store.add_store" then
    if isPost then
      if formValid then
        if db.stores.any (fun s => s.owner == user.id) then
          (db, some .integrityError)
        else
          ({ db with stores := db.stores ++ [⟨newId, user.id, store_name, description⟩] },
            some (.redirect "seller_home"))
      else (db, some .renderForm)
    else (db, some .renderForm)
  else (db, none)

/-- `product_views.create_product`: with `online_store.add_product`, on
a valid POST fetch the caller's store (`Store.objects.get(owner=...)`,
whose `DoesNotExist` is not caught), reject a duplicate
`(product_name, store)` with a field-level error on `product_name`
(the `.exclude(pk=product.pk)` excludes only the fresh unsaved uuid),
else save the product into the store and redirect; without the
permission the view returns `None`. -/
def create_product (db : DB) (user : WebUser) (isPost formValid : Bool)
    (newPid product_name : String) (price : Int) (description : String) :
    DB × Option HResp :=
  if has_perm user "online_store.add_product" then
    if isPost then
      if formValid then
        match db.stores.find? (fun s => s.owner == user.id) with
        | none => (db, some .storeMissing)
        | some store =>
          if db.products.any (fun p =>
              p.product_name == product_name && p.store == some store.store_id) then
            (db, some (.formFieldError "product_name"))
          else
            ({ db with products := db.products ++
                [⟨newPid, some store.store_id, product_name, price, description⟩] },
              some (.redirect "seller_home"))
      else (db, some .renderForm)
    else (db, some .renderForm)
  else (db, none)

/-- `store_views.update_store`: with `online_store.change_store`, fetch
(404 if absent) and on a valid POST save the edited fields and
redirect; without the permission the view returns `None`. -/
def update_store (db : DB) (user : WebUser) (pk : String)
    (isPost formValid : Bool) (store_name description : String) :
    DB × Option HResp :=
  if has_perm user "online_store.change_store" then
    match db.stores.find? (fun s => s.store_id == pk) with
    | none => (db, some .notFound)
    | some _ =>
      if isPost then
        if formValid then
          ({ db with stores := db.stores.map (fun x =>
              if x.store_id == pk then
                { x with store_name := store_name, description := description }
              else x) }, some (.redirect "seller_home"))
        else (db, some .renderForm)
      else (db, some .renderForm)
  else (db, none)

/-- `product_views.update_product`: with `online_store.change_product`,
fetch (404 if absent) and on a valid POST reject a duplicate
`(product_name, store)` held by a DIFFERENT product with a field-level
error, else save the edit and redirect; without the permission the view
returns `None`. -/
def update_product (db : DB) (user : WebUser) (pk : String)
    (isPost formValid : Bool) (product_name : String) (price : Int)
    (description : String) : DB × Option HResp :=
  if has_perm user "online_store.change_product" then
    match db.products.find? (fun p => p.product_id == pk) with
    | none => (db, some .notFound)
    | some product =>
      if isPost then
        if formValid then
          if db.products.any (fun p =>
              p.product_name == product_name && p.store == product.store &&
                !(p.product_id == product.product_id)) then
            (db, some (.formFieldError "product_name"))
          else
            ({ db with products := db.products.map (fun x =>
                if x.product_id == pk then
                  { x with
                    product_name := product_name
                    price := price
                    description := description }
                else x) }, some (.redirect "seller_home"))
        else (db, some .renderForm)
      else (db, some .renderForm)
  else (db, none)

/-- Whether a response is a redirect or an explicit denial (the API's
403 Forbidden). -/
def isRedirectOrDenial : Option HResp → Bool
  | some (.redirect _) => true
  | some .forbidden => true
  | _ => false

end OnlineStore
namespace OnlineStore

/- ----------------------------------------------------------------
Helper lemmas. -/

/-- Reading a session map whose head entry carries the looked-up key. -/
theorem sessionGet_cons_pos (kv : String × Int) (l : List (String × Int))
    (item : String) (h : (kv.1 == item) = true) :
    sessionGet (kv :: l) item = kv.2 := by
  simp [sessionGet, List.find?, h]

/-- Reading a session map past a head entry with a different key. -/
theorem sessionGet_cons_neg (kv : String × Int) (l : List (String × Int))
    (item : String) (h : (kv.1 == item) = false) :
    sessionGet (kv :: l) item = sessionGet l item := by
  simp only [sessionGet, List.find?, h]

/-- Inserting under a key absent from the head commutes with the head. -/
theorem sessionInsert_cons_neg (kv : String × Int) (l : List (String × Int))
    (item : String) (q : Int) (h : (kv.1 == item) = false) :
    sessionInsert (kv :: l) item q = kv :: sessionInsert l item q := by
  have hne : ¬(kv.1 = item) := by
    simpa using h
  cases hrest : (l.any (fun x => x.1 == item)) with
  | true => simp [sessionInsert, h, hne, hrest]
  | false => simp [sessionInsert, h, hne, hrest]

/-- Bumping a key of the session map adds to exactly that key's value
(the absent key reads as 0, matching `cart.get(item, 0)`). -/
theorem sessionGet_sessionInsert (s : List (String × Int)) (item : String)
    (q : Int) : sessionGet (sessionInsert s item q) item = sessionGet s item + q := by
  induction s with
  | nil => simp [sessionInsert, sessionGet]
  | cons kv rest ih =>
    by_cases hkv : (kv.1 == item) = true
    · have heq : kv.1 = item := by
        simpa using hkv
      have hins : sessionInsert (kv :: rest) item q =
          (kv.1, kv.2 + q) ::
            rest.map (fun x => if x.1 == item then (x.1, x.2 + q) else x) := by
        simp [sessionInsert, hkv, heq]
      rw [hins, sessionGet_cons_pos (kv.1, kv.2 + q) _ _ hkv,
        sessionGet_cons_pos kv _ _ hkv]
    · have hkv' : (kv.1 == item) = false := by
        simpa using hkv
      rw [sessionInsert_cons_neg _ _ _ _ hkv', sessionGet_cons_neg _ _ _ hkv',
        sessionGet_cons_neg _ _ _ hkv', ih]

/-- Filtering for a property after filtering it away yields nothing. -/
theorem filter_neg_filter {α : Type} (l : List α) (p : α → Bool) :
    (l.filter (fun a => !(p a))).filter p = [] := by
  induction l with
  | nil => rfl
  | cons a rest ih =>
    by_cases ha : p a = true
    · simp [List.filter, ha, ih]
    · have ha' : p a = false := by
        simpa using ha
      simp [List.filter, ha', ih]

/-- The order items `checkout` creates from the cart lines, with their
auto-increment ids starting at `startId`. -/
def mkOrderItems (db : DB) (orderId startId : Nat) :
    List CartItem → List OrderItem
  | [] => []
  | ci :: rest =>
    ⟨startId, orderId, productName db ci.items, ci.quantity,
      unitPrice db ci.items * ci.quantity⟩ :: mkOrderItems db orderId (startId + 1) rest

/-- Closed form of the order-item creation loop of `checkout`: it
appends one `OrderItem` per cart line and advances the id counter,
touching no other table. -/
theorem checkout_foldl_eq (db : DB) (orderId : Nat) :
    ∀ (items : List CartItem) (acc : DB),
      items.foldl (fun acc ci =>
        { acc with
          orderItems := acc.orderItems ++
            [⟨acc.nextId, orderId, productName db ci.items, ci.quantity,
              unitPrice db ci.items * ci.quantity⟩],
          nextId := acc.nextId + 1 }) acc =
      { acc with
        orderItems := acc.orderItems ++ mkOrderItems db orderId acc.nextId items,
        nextId := acc.nextId + items.length } := by
  intro items
  induction items with
  | nil =>
    intro acc
    simp [mkOrderItems]
  | cons ci rest ih =>
    intro acc
    simp only [List.foldl, mkOrderItems, ih, List.length_cons]
    simp [List.append_assoc, DB.mk.injEq]
    try omega

/- ----------------------------------------------------------------
Claim C1. -/

/-- Initial state for the checkout example: products Apple (unit price
10.00) and Bread (unit 5.00), user 7's cart holding Apple × 2 and
Bread × 1. -/
def exC1db : DB :=
  ⟨[], [⟨"pA", none, "Apple", 1000, ""⟩, ⟨"pB", none, "Bread", 500, ""⟩],
    [⟨1, 7⟩], [⟨2, 1, "pA", 2⟩, ⟨3, 1, "pB", 1⟩], [], [], [], 4⟩

/-- The state checkout leaves behind in that example. -/
def exC1after : DB :=
  ⟨[], [⟨"pA", none, "Apple", 1000, ""⟩, ⟨"pB", none, "Bread", 500, ""⟩],
    [⟨1, 7⟩], [], [⟨4, 7, 2500⟩],
    [⟨5, 4, "Apple", 2, 2000⟩, ⟨6, 4, "Bread", 1, 500⟩], [], 7⟩

/-- Claim C1: checkout on a cart with items [(Apple, qty 2, unit price
10.00), (Bread, qty 1, unit price 5.00)] creates exactly one Order with
total_price 25.00 and exactly two OrderItems with price fields 20.00 and
5.00 (each line price = unit price × quantity at checkout time); the
cart's CartItem rows are all deleted afterward; and because a product
edit (`setProductPrice`, the `update_product` save path) touches only
the products table while OrderItem stores only the name and computed
price, a later change to Apple's price leaves the stored OrderItem
prices and Order total unchanged.  (Amounts are cents.) -/
theorem checkout_snapshot_example :
    checkout exC1db 7 true true true = .success exC1after ∧
    exC1after.orders = [⟨4, 7, 2500⟩] ∧
    exC1after.orderItems = [⟨5, 4, "Apple", 2, 2000⟩, ⟨6, 4, "Bread", 1, 500⟩] ∧
    exC1after.cartItems = [] ∧
    (∀ (db : DB) (pid : String) (newPrice : Int),
      (setProductPrice db pid newPrice).orderItems = db.orderItems ∧
      (setProductPrice db pid newPrice).orders = db.orders) :=
  ⟨by decide, rfl, rfl, rfl, fun db pid newPrice => ⟨rfl, rfl⟩⟩

/- ----------------------------------------------------------------
Claim C9. -/

/-- Claim C9: on the anonymous (session) cart, adding the same product
id twice accumulates the quantity in the single map entry, while an add
whose quantity fails `int(...)` or is below 1 is answered with an
`HttpResponseBadRequest` and leaves the session cart unchanged. -/
theorem anon_cart_add_accumulates_and_rejects :
    (∀ (s : List (String × Int)) (item : String) (q1 q2 : Int),
      1 ≤ q1 → 1 ≤ q2 → (item == "") = false →
      add_item_to_cart s (some q1) (some item) =
        (sessionInsert s item q1, .redirectView) ∧
      sessionGet (sessionInsert (sessionInsert s item q1) item q2) item =
        sessionGet s item + q1 + q2) ∧
    (∀ (s : List (String × Int)) (item : Option String),
      add_item_to_cart s none item =
        (s, .badRequest "Quantity must be at least 1")) ∧
    (∀ (s : List (String × Int)) (item : Option String) (q : Int),
      q < 1 →
      add_item_to_cart s (some q) item = (s, .badRequest "Invalid quantity")) := by
  refine ⟨?acc, ?parse, ?low⟩
  · intro s item q1 q2 h1 h2 hitem
    have hq1 : ¬(q1 < 1) := by omega
    constructor
    · simp [add_item_to_cart, hitem, hq1]
    · rw [sessionGet_sessionInsert, sessionGet_sessionInsert, Int.add_assoc]
  · intro s item
    rfl
  · intro s item q hq
    simp [add_item_to_cart, hq]

/-- Witness for C9 at the claim's numbers: add 2 then add 3 of product
`"pA"` to an empty session cart yields quantity 5, and quantity 0 or a
failed parse is rejected. -/
theorem anon_cart_add_witness :
    (add_item_to_cart [] (some 2) (some "pA") =
      (sessionInsert [] "pA" 2, .redirectView) ∧
     sessionGet (sessionInsert (sessionInsert [] "pA" 2) "pA" 3) "pA" =
      sessionGet [] "pA" + 2 + 3) ∧
    add_item_to_cart [] none (some "pA") =
      ([], .badRequest "Quantity must be at least 1") ∧
    add_item_to_cart [] (some 0) (some "pA") =
      ([], .badRequest "Invalid quantity") :=
  ⟨anon_cart_add_accumulates_and_rejects.1 [] "pA" 2 3 (by decide) (by decide)
      (by decide),
    anon_cart_add_accumulates_and_rejects.2.1 [] (some "pA"),
    anon_cart_add_accumulates_and_rejects.2.2 [] (some "pA") 0 (by decide)⟩

/- ----------------------------------------------------------------
Claim C10. -/

/-- Claim C10: the authenticated (database) cart add does not reject bad
quantities: a quantity that fails `int(...)` or is below 1 is silently
coerced to 1 and the add proceeds exactly as an add of quantity 1
(get-or-create the cart, then increment the existing CartItem or create
it with quantity 1) — in contrast to the anonymous path, which answers
the same input with a client error and an unchanged session cart. -/
theorem db_cart_add_coerces_bad_quantity :
    ∀ (db : DB) (user : Nat) (pid : String) (p : Product) (qtyRaw : Option Int),
      (qtyRaw = none ∨ ∃ q, qtyRaw = some q ∧ q < 1) →
      db.products.find? (fun x => some x.product_id == some pid) = some p →
      coerceQty qtyRaw = 1 ∧
      add_item_db_cart db user (some pid) qtyRaw =
        some (upsertCartItem (getOrCreateCart db user).2
          (getOrCreateCart db user).1.id p.product_id 1) ∧
      add_item_db_cart db user (some pid) qtyRaw =
        add_item_db_cart db user (some pid) (some 1) ∧
      (∀ (s : List (String × Int)) (item : Option String),
        (add_item_to_cart s qtyRaw item).1 = s ∧
        ∃ msg, (add_item_to_cart s qtyRaw item).2 = .badRequest msg) := by
  intro db user pid p qtyRaw hbad hp
  have hco : coerceQty qtyRaw = 1 := by
    rcases hbad with h | ⟨q, hq, hlt⟩
    · rw [h]; rfl
    · rw [hq]; simp [coerceQty, hlt]
  have hp2 : db.products.find? (fun x => x.product_id == pid) = some p := by
    simpa using hp
  refine ⟨hco, ?_, ?_, ?_⟩
  · simp [add_item_db_cart, hp2, hco]
  · simp [add_item_db_cart, hp2, hco]
    rfl
  · intro s item
    rcases hbad with h | ⟨q, hq, hlt⟩
    · rw [h]
      exact ⟨rfl, "Quantity must be at least 1", rfl⟩
    · rw [hq]
      simp [add_item_to_cart, hlt]

/- ----------------------------------------------------------------
Checkout branch lemmas shared by several claims. -/

/-- The cart lines `cart.cartitem_set.all()` returns. -/
def cartLines (db : DB) (cart : Cart) : List CartItem :=
  db.cartItems.filter (fun ci => ci.cart == cart.id)

/-- `total_price = sum(item.items.price * item.quantity ...)`. -/
def totalOf (db : DB) (cart : Cart) : Int :=
  ((cartLines db cart).map (fun ci => unitPrice db ci.items * ci.quantity)).sum

/-- Anonymous callers are redirected to the login page. -/
theorem checkout_unauth (db : DB) (user : Nat) (isPost emailOk : Bool) :
    checkout db user false isPost emailOk = .loginRedirect := rfl

/-- A user without a cart row gets the `get_object_or_404` 404. -/
theorem checkout_no_cart (db : DB) (user : Nat) (isPost emailOk : Bool)
    (hc : db.carts.find? (fun c => c.user == user) = none) :
    checkout db user true isPost emailOk = .cartNotFound := by
  simp [checkout, hc]

/-- A GET renders the checkout page without touching the database. -/
theorem checkout_get_renders (db : DB) (user : Nat) (emailOk : Bool)
    (cart : Cart) (hc : db.carts.find? (fun c => c.user == user) = some cart) :
    checkout db user true false emailOk = .page := by
  simp [checkout, hc]

/-- A POST on an empty cart redirects back to the cart view. -/
theorem checkout_empty_cart (db : DB) (user : Nat) (emailOk : Bool)
    (cart : Cart) (hc : db.carts.find? (fun c => c.user == user) = some cart)
    (he : (db.cartItems.filter (fun ci => ci.cart == cart.id)).isEmpty = true) :
    checkout db user true true emailOk = .emptyCartRedirect := by
  simp [checkout, hc, he]

/-- Closed form of a POST checkout whose invoice email raises: the
`Order` and its `OrderItem`s are already persisted and the cart items
are still in place when the exception aborts the request. -/
theorem checkout_email_fail_eq (db : DB) (user : Nat) (cart : Cart)
    (hc : db.carts.find? (fun c => c.user == user) = some cart)
    (hne : (db.cartItems.filter (fun ci => ci.cart == cart.id)).isEmpty = false) :
    checkout db user true true false =
      .emailError { db with
        orders := db.orders ++ [⟨db.nextId, user, totalOf db cart⟩],
        orderItems := db.orderItems ++
          mkOrderItems db db.nextId (db.nextId + 1) (cartLines db cart),
        nextId := db.nextId + 1 + (cartLines db cart).length } := by
  simp [checkout, hc, hne, checkout_foldl_eq, cartLines, totalOf]

/-- Closed form of a successful POST checkout: order and order items
persisted, this cart's items deleted. -/
theorem checkout_success_eq (db : DB) (user : Nat) (cart : Cart)
    (hc : db.carts.find? (fun c => c.user == user) = some cart)
    (hne : (db.cartItems.filter (fun ci => ci.cart == cart.id)).isEmpty = false) :
    checkout db user true true true =
      .success { db with
        cartItems := db.cartItems.filter (fun ci => !(ci.cart == cart.id)),
        orders := db.orders ++ [⟨db.nextId, user, totalOf db cart⟩],
        orderItems := db.orderItems ++
          mkOrderItems db db.nextId (db.nextId + 1) (cartLines db cart),
        nextId := db.nextId + 1 + (cartLines db cart).length } := by
  simp [checkout, hc, hne, checkout_foldl_eq, cartLines, totalOf]

/- ----------------------------------------------------------------
Claim C6. -/

/-- Initial state for the email-failure example: same cart as the
checkout example. -/
def exC6db : DB :=
  ⟨[], [⟨"pA", none, "Apple", 1000, ""⟩, ⟨"pB", none, "Bread", 500, ""⟩],
    [⟨1, 7⟩], [⟨2, 1, "pA", 2⟩, ⟨3, 1, "pB", 1⟩], [], [], [], 4⟩

/-- Claim C6: if the invoice email send raises during checkout the
exception is not caught — the request aborts (`emailError`) — but the
`Order` and its `OrderItem`s created just before the send remain
persisted and the cart's items are NOT deleted: checkout is not atomic
with respect to the email side effect. -/
theorem checkout_email_failure_aborts (db : DB) (user : Nat) (cart : Cart)
    (hc : db.carts.find? (fun c => c.user == user) = some cart)
    (hne : (db.cartItems.filter (fun ci => ci.cart == cart.id)).isEmpty = false) :
    ∃ db2, checkout db user true true false = .emailError db2 ∧
      db2.orders = db.orders ++ [⟨db.nextId, user, totalOf db cart⟩] ∧
      db2.orderItems = db.orderItems ++
        mkOrderItems db db.nextId (db.nextId + 1) (cartLines db cart) ∧
      db2.cartItems = db.cartItems :=
  ⟨_, checkout_email_fail_eq db user cart hc hne, rfl, rfl, rfl⟩

/-- Witness for C6 on the concrete two-line cart. -/
theorem checkout_email_failure_witness :
    ∃ db2, checkout exC6db 7 true true false = .emailError db2 ∧
      db2.orders = exC6db.orders ++ [⟨exC6db.nextId, 7, totalOf exC6db ⟨1, 7⟩⟩] ∧
      db2.orderItems = exC6db.orderItems ++
        mkOrderItems exC6db exC6db.nextId (exC6db.nextId + 1) (cartLines exC6db ⟨1, 7⟩) ∧
      db2.cartItems = exC6db.cartItems :=
  checkout_email_failure_aborts exC6db 7 ⟨1, 7⟩ (by decide) (by decide)

/- ----------------------------------------------------------------
Claim C2. -/

/-- Empty persisted cart for user 7, products Apple and Bread known. -/
def exC2empty : DB :=
  ⟨[], [⟨"pA", none, "Apple", 1000, ""⟩, ⟨"pB", none, "Bread", 500, ""⟩],
    [⟨1, 7⟩], [], [], [], [], 2⟩

/-- Persisted cart for user 7 already holding CartItem(Apple, 1). -/
def exC2one : DB :=
  ⟨[], [⟨"pA", none, "Apple", 1000, ""⟩, ⟨"pB", none, "Bread", 500, ""⟩],
    [⟨1, 7⟩], [⟨2, 1, "pA", 1⟩], [], [], [], 3⟩

/-- Claim C2: the login cart merge runs only for Buyer-group users (for
anyone else both the database and the session cart are untouched); for
a Buyer every `(product id, qty)` session pair whose product exists is
folded into the persisted cart — get-or-created, or its quantity
increased by `qty` — while unknown product ids are skipped; and the
session cart is set to empty afterward.  Conjuncts 3-5 settle one
session pair against an existing cart; the final two conjuncts are the
claim's concrete examples `{A:2, B:1}` into an empty cart and `A:2`
onto an existing CartItem(A, 1). -/
theorem merge_cart_spec :
    (∀ (db : DB) (user : Nat) (s : List (String × Int)),
      merge_cart db user false s = (db, s)) ∧
    (∀ (db : DB) (user : Nat) (s : List (String × Int)),
      (merge_cart db user true s).2 = []) ∧
    (∀ (db : DB) (user : Nat) (cart : Cart) (pid : String) (qty : Int),
      db.carts.find? (fun c => c.user == user) = some cart →
      db.products.find? (fun p => p.product_id == pid) = none →
      merge_cart db user true [(pid, qty)] = (db, [])) ∧
    (∀ (db : DB) (user : Nat) (cart : Cart) (pid : String) (qty : Int)
        (prod : Product) (ci : CartItem),
      db.carts.find? (fun c => c.user == user) = some cart →
      db.products.find? (fun p => p.product_id == pid) = some prod →
      db.cartItems.find? (fun x => x.cart == cart.id && x.items == prod.product_id) =
        some ci →
      merge_cart db user true [(pid, qty)] =
        ({ db with cartItems := db.cartItems.map (fun x =>
            if x.id == ci.id then { x with quantity := x.quantity + qty }
            else x) }, [])) ∧
    (∀ (db : DB) (user : Nat) (cart : Cart) (pid : String) (qty : Int)
        (prod : Product),
      db.carts.find? (fun c => c.user == user) = some cart →
      db.products.find? (fun p => p.product_id == pid) = some prod →
      db.cartItems.find? (fun x => x.cart == cart.id && x.items == prod.product_id) =
        none →
      merge_cart db user true [(pid, qty)] =
        ({ db with
            cartItems := db.cartItems ++ [⟨db.nextId, cart.id, prod.product_id, qty⟩],
            nextId := db.nextId + 1 }, [])) ∧
    merge_cart exC2empty 7 true [("pA", 2), ("pB", 1)] =
      ({ exC2empty with
          cartItems := [⟨2, 1, "pA", 2⟩, ⟨3, 1, "pB", 1⟩], nextId := 4 }, []) ∧
    merge_cart exC2one 7 true [("pA", 2)] =
      ({ exC2one with cartItems := [⟨2, 1, "pA", 3⟩] }, []) := by
  refine ⟨?nonbuyer, ?clears, ?unknown, ?bump, ?fresh, ?ex1, ?ex2⟩
  · intro db user s
    rfl
  · intro db user s
    rfl
  · intro db user cart pid qty hc hp
    simp [merge_cart, getOrCreateCart, hc, hp]
  · intro db user cart pid qty prod ci hc hp hi
    simp [merge_cart, getOrCreateCart, upsertCartItem, hc, hp, hi]
  · intro db user cart pid qty prod hc hp hi
    simp [merge_cart, getOrCreateCart, upsertCartItem, hc, hp, hi]
  · decide
  · decide

/-- Witness for C2: merging quantity 5 of Apple into a cart already
holding CartItem(Apple, 1). -/
theorem merge_cart_witness :
    merge_cart exC2one 7 true [("pA", 5)] =
      ({ exC2one with cartItems := exC2one.cartItems.map (fun x =>
          if x.id == (2 : Nat) then { x with quantity := x.quantity + 5 }
          else x) }, []) :=
  merge_cart_spec.2.2.2.1 exC2one 7 ⟨1, 7⟩ "pA" 5 ⟨"pA", none, "Apple", 1000, ""⟩
    ⟨2, 1, "pA", 1⟩ (by decide) (by decide) (by decide)

/- ----------------------------------------------------------------
Claim C3. -/

/-- State for the review example: product Apple; user 7 already ordered
2 Apples (order 1, order item 2 holding the name snapshot). -/
def exC3db : DB :=
  ⟨[], [⟨"pA", none, "Apple", 1000, ""⟩], [], [], [⟨1, 7, 2000⟩],
    [⟨2, 1, "Apple", 2, 2000⟩], [], 3⟩

/-- Claim C3: at most one Review per (user, product): a second create
attempt by the same user for the same product is rejected with a
user-visible message and leaves the database unchanged; a created
review's `is_verified` equals `has_purchased` at the moment of creation
(the source's `OrderItem.objects.filter(order__user=user,
product=product).exists()`, which matches the CharField snapshot
against the product's name); and checkout never touches existing
reviews, so later qualifying orders cannot re-evaluate the flag. -/
theorem review_once_verified_at_creation :
    (∀ (db : DB) (user : Nat) (pk : String) (prod : Product) (isPost : Bool)
        (rating : Int) (comment : String),
      db.products.find? (fun p => p.product_id == pk) = some prod →
      db.reviews.any (fun r => r.user == user && r.product == some prod.product_id) =
        true →
      create_review db user pk isPost rating comment = (db, .duplicateRejected)) ∧
    (∀ (db : DB) (user : Nat) (pk : String) (prod : Product) (rating : Int)
        (comment : String),
      db.products.find? (fun p => p.product_id == pk) = some prod →
      db.reviews.any (fun r => r.user == user && r.product == some prod.product_id) =
        false →
      create_review db user pk true rating comment =
        ({ db with
            reviews := db.reviews ++
              [⟨db.nextId, user, some prod.product_id, rating, comment,
                has_purchased db user prod.product_name⟩],
            nextId := db.nextId + 1 }, .created)) ∧
    (∀ (db : DB) (user : Nat) (auth isPost emailOk : Bool) (db2 : DB),
      checkoutDb (checkout db user auth isPost emailOk) = some db2 →
      db2.reviews = db.reviews) := by
  refine ⟨?dup, ?create, ?stable⟩
  · intro db user pk prod isPost rating comment hp hdup
    simp [create_review, hp, hdup]
  · intro db user pk prod rating comment hp hdup
    simp [create_review, hp, hdup]
  · intro db user auth isPost emailOk db2 h
    cases auth with
    | false =>
      rw [checkout_unauth] at h
      simp [checkoutDb] at h
    | true =>
      cases hc : db.carts.find? (fun c => c.user == user) with
      | none =>
        rw [checkout_no_cart db user isPost emailOk hc] at h
        simp [checkoutDb] at h
      | some cart =>
        cases isPost with
        | false =>
          rw [checkout_get_renders db user emailOk cart hc] at h
          simp [checkoutDb] at h
        | true =>
          cases hne : (db.cartItems.filter (fun ci => ci.cart == cart.id)).isEmpty with
          | true =>
            rw [checkout_empty_cart db user emailOk cart hc hne] at h
            simp [checkoutDb] at h
          | false =>
            cases emailOk with
            | false =>
              rw [checkout_email_fail_eq db user cart hc hne] at h
              simp [checkoutDb] at h
              rw [← h]
            | true =>
              rw [checkout_success_eq db user cart hc hne] at h
              simp [checkoutDb] at h
              rw [← h]

/-- Witness for C3: user 7 reviews Apple (verified, having ordered it);
a second attempt is rejected with the database unchanged. -/
theorem review_witness :
    create_review exC3db 7 "pA" true 5 "great" =
      ({ exC3db with
          reviews := exC3db.reviews ++
            [⟨exC3db.nextId, 7, some "pA", 5, "great",
              has_purchased exC3db 7 "Apple"⟩],
          nextId := exC3db.nextId + 1 }, .created) ∧
    has_purchased exC3db 7 "Apple" = true ∧
    create_review
        { exC3db with reviews := [⟨3, 7, some "pA", 5, "great", true⟩], nextId := 4 }
        7 "pA" true 1 "again" =
      ({ exC3db with reviews := [⟨3, 7, some "pA", 5, "great", true⟩], nextId := 4 },
        .duplicateRejected) :=
  ⟨review_once_verified_at_creation.2.1 exC3db 7 "pA" ⟨"pA", none, "Apple", 1000, ""⟩
      5 "great" (by decide) (by decide),
    by decide,
    review_once_verified_at_creation.1
      { exC3db with reviews := [⟨3, 7, some "pA", 5, "great", true⟩], nextId := 4 }
      7 "pA" ⟨"pA", none, "Apple", 1000, ""⟩ true 1 "again"
      (by decide) (by decide)⟩

/-- Witness for C10: user 7 adds product `"pA"` with a quantity that
failed to parse; the add proceeds as a quantity-1 add. -/
theorem db_cart_add_witness :
    coerceQty none = 1 ∧
    add_item_db_cart exC1db 7 (some "pA") none =
      some (upsertCartItem (getOrCreateCart exC1db 7).2
        (getOrCreateCart exC1db 7).1.id "pA" 1) ∧
    add_item_db_cart exC1db 7 (some "pA") none =
      add_item_db_cart exC1db 7 (some "pA") (some 1) ∧
    (∀ (s : List (String × Int)) (item : Option String),
      (add_item_to_cart s none item).1 = s ∧
      ∃ msg, (add_item_to_cart s none item).2 = .badRequest msg) :=
  db_cart_add_coerces_bad_quantity exC1db 7 "pA"
    ⟨"pA", none, "Apple", 1000, ""⟩ none (Or.inl rfl) (by decide)

/- ----------------------------------------------------------------
Claims C4 and C8 (reset-token lifecycle). -/

/-- A concrete stand-in for `sha1(...).hexdigest()` used by witnesses;
the lifecycle theorems hold for every hash function. -/
def exHash (s : String) : String := s ++ "#"

/-- The state a successful token consumption leaves behind: the named
user's credential replaced, every token row with the staged raw token's
hash deleted, the session handshake cleared. -/
def consumedState (hash : String → String) (st : RState)
    (username password raw : String) : RState :=
  { st with
    users := st.users.map (fun u =>
      if u.username == username then { u with password := password } else u),
    tokens := st.tokens.filter (fun t => !(t.token == hash raw)),
    sessionUser := none, sessionToken := none }

/-- A stored (already hashed) token for alice that expired at time 100. -/
def exC4expired : RState :=
  ⟨[⟨"alice", "old", ["Buyers"]⟩], [⟨1, "alice", "tok#", 100⟩], none, none⟩

/-- The same token still valid, with the validation handshake staged in
the session. -/
def exC4live : RState :=
  ⟨[⟨"alice", "old", ["Buyers"]⟩], [⟨1, "alice", "tok#", 100⟩],
    some "alice", some "tok"⟩

/-- Claim C4: validating a raw token whose stored row's expiry has
passed deletes that row and reports the link expired; validating a raw
token whose hash matches no stored row reports it invalid; and
successfully consuming a token (matching new passwords) sets the new
credential, deletes every row with that hash and clears the handshake,
so presenting the same raw token a second time reports invalid. -/
theorem reset_token_lifecycle :
    (∀ (hash : String → String) (st : RState) (raw : String) (now : Int)
        (t : RToken),
      st.tokens.filter (fun x => x.token == hash raw) = [t] →
      t.expiry_date < now →
      reset_user_password hash st raw now =
        .expired { st with tokens := st.tokens.filter (fun x => !(x.id == t.id)) }) ∧
    (∀ (hash : String → String) (st : RState) (raw : String) (now : Int),
      st.tokens.filter (fun x => x.token == hash raw) = [] →
      reset_user_password hash st raw now = .invalid st) ∧
    (∀ (hash : String → String) (st : RState) (username raw password : String)
        (now : Int),
      st.sessionUser = some username →
      st.sessionToken = some raw →
      (username == "") = false →
      (raw == "") = false →
      st.users.any (fun u => u.username == username) = true →
      ∃ st2 target,
        reset_password hash st true password password = .done st2 target ∧
        st2.tokens.filter (fun x => x.token == hash raw) = [] ∧
        reset_user_password hash st2 raw now = .invalid st2 ∧
        (∀ u, u ∈ st2.users → u.username = username → u.password = password) ∧
        st2.sessionUser = none ∧ st2.sessionToken = none) := by
  refine ⟨?expired, ?unknown, ?consume⟩
  · intro hash st raw now t hfil ht
    simp [reset_user_password, hfil, ht]
  · intro hash st raw now hfil
    simp [reset_user_password, hfil]
  · intro hash st username raw password now hsu hst hu hr hex
    refine ⟨consumedState hash st username password raw,
      redirectTarget (consumedState hash st username password raw) username,
      ?done, ?gone, ?reuse, ?cred, rfl, rfl⟩
    case done =>
      simp [reset_password, hsu, hst, hu, hr, change_user_password, hex,
        consumedState]
    case gone =>
      simp only [consumedState]
      exact filter_neg_filter st.tokens (fun x => x.token == hash raw)
    case reuse =>
      have h2 := filter_neg_filter st.tokens (fun x => x.token == hash raw)
      simp only [reset_user_password, consumedState]
      rw [h2]
    case cred =>
      intro u hu2 hname
      simp only [consumedState, List.mem_map] at hu2
      obtain ⟨x, hx, rfl⟩ := hu2
      by_cases hxx : (x.username == username) = true
      · rw [if_pos hxx]
      · rw [if_neg hxx] at hname ⊢
        exact absurd (beq_iff_eq.mpr hname) hxx

/-- Witness for C4: alice's expired token is deleted and reported
expired; an unknown token is invalid; consuming the live token sets the
new password, empties the matching token rows, and re-validation of the
same raw token is invalid. -/
theorem reset_token_witness :
    reset_user_password exHash exC4expired "tok" 200 =
      .expired { exC4expired with
        tokens := exC4expired.tokens.filter (fun x => !(x.id == 1)) } ∧
    reset_user_password exHash exC4expired "unknown" 200 =
      .invalid exC4expired ∧
    (∃ st2 target,
      reset_password exHash exC4live true "npw" "npw" = .done st2 target ∧
      st2.tokens.filter (fun x => x.token == exHash "tok") = [] ∧
      reset_user_password exHash st2 "tok" 50 = .invalid st2 ∧
      (∀ u, u ∈ st2.users → u.username = "alice" → u.password = "npw") ∧
      st2.sessionUser = none ∧ st2.sessionToken = none) :=
  ⟨reset_token_lifecycle.1 exHash exC4expired "tok" 200 ⟨1, "alice", "tok#", 100⟩
      (by decide) (by decide),
    reset_token_lifecycle.2.1 exHash exC4expired "unknown" 200 (by decide),
    reset_token_lifecycle.2.2 exHash exC4live "alice" "tok" "npw" 50 rfl rfl
      (by decide) (by decide) (by decide)⟩

/-- Claim C8: consuming a reset token with mismatched new-password
fields re-renders with an error and changes no state at all — the
result is `.mismatch st` with the very same state: credential not
updated, token rows kept, session handshake kept. -/
theorem reset_password_mismatch_unchanged :
    ∀ (hash : String → String) (st : RState) (username raw p q : String),
      st.sessionUser = some username →
      st.sessionToken = some raw →
      (username == "") = false →
      (raw == "") = false →
      (p == q) = false →
      reset_password hash st true p q = .mismatch st := by
  intro hash st username raw p q hsu hst hu hr hpq
  simp [reset_password, hsu, hst, hu, hr, hpq]

/-- Witness for C8: mismatched fields leave alice's live handshake
state untouched. -/
theorem reset_password_mismatch_witness :
    reset_password exHash exC4live true "new1" "new2" = .mismatch exC4live :=
  reset_password_mismatch_unchanged exHash exC4live "alice" "tok" "new1" "new2"
    rfl rfl (by decide) (by decide) (by decide)

/- ----------------------------------------------------------------
Claim C5 (permission-gated mutations). -/

/-- A store with a product, owned by user 9. -/
def exC5db : DB :=
  ⟨[⟨"s1", 9, "Shop", "d"⟩], [⟨"p1", some "s1", "Gadget", 100, "d"⟩],
    [], [], [], [], [], 1⟩

/-- User 9 with no permissions at all. -/
def exC5user : WebUser := ⟨9, []⟩

/-- Claim C5 counterexample: a store delete by a user without the
`delete_store` permission mutates nothing — but the response is NOT a
redirect or denial: the view returns `None` (Django raises "view
returned None", an HTTP 500), so the claim's response clause fails. -/
theorem perm_denied_counterexample :
    (delete_store exC5db exC5user "s1").1 = exC5db ∧
    (delete_store exC5db exC5user "s1").2 = none ∧
    isRedirectOrDenial (delete_store exC5db exC5user "s1").2 = false := by
  decide

/-- Claim C5 (amended): for every Store or Product create, update or
delete where the user lacks the corresponding named permission, no
database mutation happens; the API store-create answers an explicit 403
denial, while the web views return no response at all (`none`, a server
error once Django handles it) rather than a redirect or denial. -/
theorem perm_denied_no_mutation :
    (∀ (db : DB) (u : WebUser) (pk : String),
      has_perm u "online_store.delete_store" = false →
      delete_store db u pk = (db, none)) ∧
    (∀ (db : DB) (u : WebUser) (pk : String),
      has_perm u "online_store.delete_product" = false →
      delete_product db u pk = (db, none)) ∧
    (∀ (db : DB) (u : WebUser) (isPost formValid : Bool) (nid n d : String),
      has_perm u "online_store.add_store" = false →
      create_store db u isPost formValid nid n d = (db, none)) ∧
    (∀ (db : DB) (u : WebUser) (isPost formValid : Bool) (npid pn : String)
        (pr : Int) (d : String),
      has_perm u "online_store.add_product" = false →
      create_product db u isPost formValid npid pn pr d = (db, none)) ∧
    (∀ (db : DB) (u : WebUser) (pk : String) (isPost formValid : Bool)
        (n d : String),
      has_perm u "online_store.change_store" = false →
      update_store db u pk isPost formValid n d = (db, none)) ∧
    (∀ (db : DB) (u : WebUser) (pk : String) (isPost formValid : Bool)
        (pn : String) (pr : Int) (d : String),
      has_perm u "online_store.change_product" = false →
      update_product db u pk isPost formValid pn pr d = (db, none)) ∧
    (∀ (db : DB) (u : WebUser) (v : Bool) (nid n d : String),
      has_perm u "online_store.add_store" = false →
      add_store db u v nid n d = (db, some .forbidden)) := by
  refine ⟨?a, ?b, ?c, ?d, ?e, ?f, ?g⟩ <;>
    · intros
      simp [delete_store, delete_product, create_store, create_product,
        update_store, update_product, add_store, *]

/-- Witness for C5 (amended) at the concrete store and permission-less
user: the web deletes return no response, the API create denies. -/
theorem perm_denied_witness :
    delete_store exC5db exC5user "s1" = (exC5db, none) ∧
    delete_product exC5db exC5user "p1" = (exC5db, none) ∧
    add_store exC5db exC5user true "s9" "N" "D" = (exC5db, some .forbidden) :=
  ⟨perm_denied_no_mutation.1 exC5db exC5user "s1" (by decide),
    perm_denied_no_mutation.2.1 exC5db exC5user "p1" (by decide),
    perm_denied_no_mutation.2.2.2.2.2.2 exC5db exC5user true "s9" "N" "D"
      (by decide)⟩

/- ----------------------------------------------------------------
Claim C7 (uniqueness on creation). -/

/-- Two stores: user 9 owns s1, user 8 owns s2; s2 already sells
"Gadget". -/
def exC7db : DB :=
  ⟨[⟨"s1", 9, "Nine", "d"⟩, ⟨"s2", 8, "Eight", "d"⟩],
    [⟨"p1", some "s2", "Gadget", 100, "d"⟩], [], [], [], [], [], 1⟩

/-- Vendor 9 with the create permissions. -/
def exC7vendor : WebUser :=
  ⟨9, ["online_store.add_product", "online_store.add_store"]⟩

/-- Vendor 8 with the create permissions. -/
def exC7other : WebUser :=
  ⟨8, ["online_store.add_product", "online_store.add_store"]⟩

/-- Claim C7: creating a second Store for an owner who already has one
is rejected (API pre-check 400; the web path hits the OneToOne owner
constraint and raises `IntegrityError`, persisting nothing); creating a
Product whose name already exists in the same Store is rejected with a
field-level validation error on `product_name`; and creating a Product
with the same name in a different Store succeeds. -/
theorem uniqueness_on_creation :
    (∀ (db : DB) (u : WebUser) (v : Bool) (nid n d : String),
      has_perm u "online_store.add_store" = true →
      db.stores.any (fun s => s.owner == u.id) = true →
      add_store db u v nid n d = (db, some .badRequestJson)) ∧
    (∀ (db : DB) (u : WebUser) (nid n d : String),
      has_perm u "online_store.add_store" = true →
      db.stores.any (fun s => s.owner == u.id) = true →
      create_store db u true true nid n d = (db, some .integrityError)) ∧
    (∀ (db : DB) (u : WebUser) (npid pn : String) (pr : Int) (d : String)
        (store : Store),
      has_perm u "online_store.add_product" = true →
      db.stores.find? (fun s => s.owner == u.id) = some store →
      db.products.any (fun p =>
        p.product_name == pn && p.store == some store.store_id) = true →
      create_product db u true true npid pn pr d =
        (db, some (.formFieldError "product_name"))) ∧
    (∀ (db : DB) (u : WebUser) (npid pn : String) (pr : Int) (d : String)
        (store : Store),
      has_perm u "online_store.add_product" = true →
      db.stores.find? (fun s => s.owner == u.id) = some store →
      db.products.any (fun p =>
        p.product_name == pn && p.store == some store.store_id) = false →
      create_product db u true true npid pn pr d =
        ({ db with products := db.products ++
            [⟨npid, some store.store_id, pn, pr, d⟩] },
          some (.redirect "seller_home"))) := by
  refine ⟨?api, ?web, ?dupName, ?freshName⟩
  · intro db u v nid n d hperm hown
    simp [add_store, hperm, hown]
  · intro db u nid n d hperm hown
    simp [create_store, hperm, hown]
  · intro db u npid pn pr d store hperm hs hdup
    simp [create_product, hperm, hs, hdup]
  · intro db u npid pn pr d store hperm hs hdup
    simp [create_product, hperm, hs, hdup]

/-- Witness for C7: vendor 8's second store is rejected on both paths;
a duplicate "Gadget" in store s2 draws the field-level error; vendor 9
creating "Gadget" in the different store s1 succeeds. -/
theorem uniqueness_witness :
    add_store exC7db exC7other true "s3" "N" "D" =
      (exC7db, some .badRequestJson) ∧
    create_store exC7db exC7other true true "s3" "N" "D" =
      (exC7db, some .integrityError) ∧
    create_product exC7db exC7other true true "p9" "Gadget" 100 "d" =
      (exC7db, some (.formFieldError "product_name")) ∧
    create_product exC7db exC7vendor true true "p9" "Gadget" 100 "d" =
      ({ exC7db with products := exC7db.products ++
          [⟨"p9", some "s1", "Gadget", 100, "d"⟩] },
        some (.redirect "seller_home")) :=
  ⟨uniqueness_on_creation.1 exC7db exC7other true "s3" "N" "D"
      (by decide) (by decide),
    uniqueness_on_creation.2.1 exC7db exC7other "s3" "N" "D"
      (by decide) (by decide),
    uniqueness_on_creation.2.2.1 exC7db exC7other "p9" "Gadget" 100 "d"
      ⟨"s2", 8, "Eight", "d"⟩ (by decide) (by decide) (by decide),
    uniqueness_on_creation.2.2.2 exC7db exC7vendor "p9" "Gadget" 100 "d"
      ⟨"s1", 9, "Nine", "d"⟩ (by decide) (by decide) (by decide)⟩

end OnlineStore
